import Mathlib

/-!
Verification of the `app.py` backend of azure-data-chat: a Quart web shim
that validates chat requests, attaches auth claims, invokes a downstream
Approach, relays streaming results as NDJSON, and gates requests behind a
bearer-token refresh hook.  The Python handlers are shallowly embedded as
pure Lean functions; collaborators (the AuthenticationHelper, the Approach,
the Azure credential) are passed in as function arguments, and exceptions
are modelled with `Except String` carrying the Python `str(e)` text.
-/

namespace AzureDataChat

/-- A JSON value, the payload type of request bodies, auth claims and
chat events (Python dict/list/str/int/bool/None trees). -/
inductive Json where
  | null : Json
  | bool (b : Bool) : Json
  | num (n : Int) : Json
  | str (s : String) : Json
  | arr (xs : List Json) : Json
  | obj (fields : List (String × Json)) : Json

/-- Left brace character as text. -/
def jsonLB : String := "\x7b"

/-- Right brace character as text. -/
def jsonRB : String := "\x7d"

/-- Escaping of a single character inside a JSON string literal, as
`json.dumps` (with `ensure_ascii=False`) produces it for the common cases. -/
def escapeJsonChar (c : Char) : String :=
  if c = Char.ofNat 92 then "\\\\"
  else if c = Char.ofNat 34 then "\\\""
  else if c = Char.ofNat 10 then "\\n"
  else if c = Char.ofNat 13 then "\\r"
  else if c = Char.ofNat 9 then "\\t"
  else String.singleton c

/-- Serialization of a string to a quoted JSON string literal. -/
def dumpString (s : String) : String :=
  "\"" ++ String.join (s.toList.map escapeJsonChar) ++ "\""

mutual

/-- Model of Python `json.dumps(v, ensure_ascii=False)` with the default
separators (a comma-space between items, a colon-space after keys). -/
def Json.dumps : Json → String
  | .null => "null"
  | .bool true => "true"
  | .bool false => "false"
  | .num n => toString n
  | .str s => dumpString s
  | .arr xs => "[" ++ Json.dumpsElems xs ++ "]"
  | .obj fs => jsonLB ++ Json.dumpsFields fs ++ jsonRB

/-- Comma-separated serialization of array elements. -/
def Json.dumpsElems : List Json → String
  | [] => ""
  | [x] => Json.dumps x
  | x :: y :: rest => Json.dumps x ++ ", " ++ Json.dumpsElems (y :: rest)

/-- Comma-separated serialization of object fields. -/
def Json.dumpsFields : List (String × Json) → String
  | [] => ""
  | [(k, v)] => dumpString k ++ ": " ++ Json.dumps v
  | (k, v) :: p :: rest =>
      dumpString k ++ ": " ++ Json.dumps v ++ ", " ++ Json.dumpsFields (p :: rest)

end

/-- Python `str(KeyError(k))`: the missing key wrapped in single quotes. -/
def keyErrorStr (k : String) : String :=
  String.singleton (Char.ofNat 39) ++ k ++ String.singleton (Char.ofNat 39)

/-- Python `d.get(k, default)` on a request body: returns the value bound to
`k`, or `default` when absent; raises `AttributeError` when the receiver is
not a dict (e.g. a JSON array posted as the body). -/
def Json.getD (j : Json) (k : String) (default : Json) : Except String Json :=
  match j with
  | .obj fs =>
      match fs.lookup k with
      | some v => .ok v
      | none => .ok default
  | _ => .error "AttributeError: value has no attribute get"

/-- Python `d[k]` subscription: raises `KeyError` when the key is absent and
`TypeError` when the receiver is not a dict. -/
def Json.index (j : Json) (k : String) : Except String Json :=
  match j with
  | .obj fs =>
      match fs.lookup k with
      | some v => .ok v
      | none => .error (keyErrorStr k)
  | _ => .error "TypeError: value is not subscriptable"

/-- Replace the binding of `k` (keeping its position) or append a new one,
as Python dict item assignment does. -/
def setField (fs : List (String × Json)) (k : String) (v : Json) :
    List (String × Json) :=
  match fs with
  | [] => [(k, v)]
  | (k0, v0) :: rest =>
      if k0 = k then (k0, v) :: rest else (k0, v0) :: setField rest k v

/-- Python `d[k] = v` item assignment: raises `TypeError` when the receiver
is not a dict. -/
def Json.setKey (j : Json) (k : String) (v : Json) : Except String Json :=
  match j with
  | .obj fs => .ok (.obj (setField fs k v))
  | _ => .error "TypeError: value does not support item assignment"

/-- The `format_as_ndjson` generator from app.py: it yields
`json.dumps(event, ensure_ascii=False) + "\n"` for each event of the source
generator, in order.  Embedded as a function on the produced event list. -/
def format_as_ndjson : List Json → List String
  | [] => []
  | event :: rest => (Json.dumps event ++ "\n") :: format_as_ndjson rest

/-- The two result shapes of `Approach.run`: a Python dict (non-streaming)
or an async generator of events (streaming). -/
inductive ApproachResult where
  | dict (d : List (String × Json)) : ApproachResult
  | stream (events : List Json) : ApproachResult

/-- An inbound HTTP request as the chat handler observes it: whether the
body is JSON, the parsed JSON body, and the headers. -/
structure Request where
  is_json : Bool
  json : Json
  headers : List (String × String)

/-- The body of an HTTP response from the chat handler: a single JSON
document or a streamed list of text chunks. -/
inductive RespBody where
  | jsonBody (j : Json) : RespBody
  | streamBody (chunks : List String) : RespBody

/-- Outcome of running the chat handler: an HTTP response, or an exception
that escaped the handler uncaught (left to the framework). -/
inductive Outcome where
  | response (status : Nat) (body : RespBody) : Outcome
  | escaped (err : String) : Outcome

/-- Trace of collaborator activity during one run of the chat handler:
how often the AuthenticationHelper and the Approach were invoked, and
whether the except-branch logged an exception. -/
structure ChatTrace where
  authCalls : Nat
  approachCalls : Nat
  loggedException : Bool

/-- Outcome plus collaborator trace of one run of the chat handler. -/
structure ChatResult where
  outcome : Outcome
  trace : ChatTrace

/-- The `chat` route handler from app.py, embedded line by line.
`get_auth_claims_if_enabled` is the AuthenticationHelper collaborator and
`run` the Approach collaborator; each returns `Except` with the Python
`str(e)` of a raised exception.  The auth call and the context assignment
happen before the `try` block, so their exceptions escape; `KeyError` from
`request_json["messages"]` and any `run` failure occur inside the `try`
and are mapped to a 500 error envelope. -/
def chat (req : Request)
    (get_auth_claims_if_enabled : List (String × String) → Except String Json)
    (run : Json → Json → Json → Json → Except String ApproachResult) :
    ChatResult :=
  if req.is_json = false then
    ⟨.response 415 (.jsonBody (.obj [("error", .str "request must be json")])),
     ⟨0, 0, false⟩⟩
  else
    let request_json := req.json
    match request_json.getD "context" (.obj []) with
    | .error e => ⟨.escaped e, ⟨0, 0, false⟩⟩
    | .ok context =>
      match get_auth_claims_if_enabled req.headers with
      | .error e => ⟨.escaped e, ⟨1, 0, false⟩⟩
      | .ok claims =>
        match context.setKey "auth_claims" claims with
        | .error e => ⟨.escaped e, ⟨1, 0, false⟩⟩
        | .ok context2 =>
          match request_json.index "messages" with
          | .error e =>
              ⟨.response 500 (.jsonBody (.obj [("error", .str e)])),
               ⟨1, 0, true⟩⟩
          | .ok messages =>
            match request_json.getD "stream" (.bool false) with
            | .error e =>
                ⟨.response 500 (.jsonBody (.obj [("error", .str e)])),
                 ⟨1, 0, true⟩⟩
            | .ok streamArg =>
              match request_json.getD "session_state" .null with
              | .error e =>
                  ⟨.response 500 (.jsonBody (.obj [("error", .str e)])),
                   ⟨1, 0, true⟩⟩
              | .ok session_state =>
                match run messages streamArg context2 session_state with
                | .error e =>
                    ⟨.response 500 (.jsonBody (.obj [("error", .str e)])),
                     ⟨1, 1, true⟩⟩
                | .ok (.dict d) =>
                    ⟨.response 200 (.jsonBody (.obj d)), ⟨1, 1, false⟩⟩
                | .ok (.stream events) =>
                    ⟨.response 200 (.streamBody (format_as_ndjson events)),
                     ⟨1, 1, false⟩⟩

/-- The config key under which the current bearer token is stored. -/
def CONFIG_OPENAI_TOKEN : String := "openai_token"

/-- A bearer token as returned by `credential.get_token`: the token string
and its expiry as epoch seconds. -/
structure AccessToken where
  token : String
  expires_on : Int

/-- The process state the token gate reads and writes: the `openai.api_type`
mode string, the global `openai.api_key`, and the token stored under
`config[CONFIG_OPENAI_TOKEN]` (`none` when the key was never assigned). -/
structure GateState where
  api_type : String
  api_key : Option String
  config_token : Option AccessToken

/-- Trace of one run of the token gate: whether the stored token was looked
up in the config, and whether a fresh token was fetched. -/
structure GateTrace where
  lookedUp : Bool
  refreshed : Bool

/-- The `ensure_openai_token` before-request hook from app.py.  `now` is
`time.time()` and `provider` the token `credential.get_token` would return
on this call.  Outside the `azure_ad` mode it returns immediately; inside
it, the config lookup of the stored token raises `KeyError` when the key
was never assigned, and otherwise a refresh happens exactly when the stored
token expires strictly before `now + 60`, updating both the config slot and
the global `openai.api_key`. -/
def ensure_openai_token (st : GateState) (now : Int) (provider : AccessToken) :
    Except String (GateState × GateTrace) :=
  if st.api_type ≠ "azure_ad" then
    .ok (st, ⟨false, false⟩)
  else
    match st.config_token with
    | none => .error (keyErrorStr CONFIG_OPENAI_TOKEN)
    | some openai_token =>
      if openai_token.expires_on < now + 60 then
        .ok ({ st with config_token := some provider,
                       api_key := some provider.token },
             ⟨true, true⟩)
      else
        .ok (st, ⟨true, false⟩)

/-- The routes registered on the blueprint `bp` in app.py. -/
inductive Route where
  | index : Route
  | basepath : Route
  | redirect : Route
  | favicon : Route
  | assets : Route
  | chatRoute : Route
  | auth_setup : Route

/-- Effect of each route handler on the gate-relevant state: none of the
seven handlers assigns `config[CONFIG_OPENAI_TOKEN]` or `openai.api_key`,
so each leaves the state unchanged. -/
def route_handler_gate_effect : Route → GateState → GateState
  | .index, st => st
  | .basepath, st => st
  | .redirect, st => st
  | .favicon, st => st
  | .assets, st => st
  | .chatRoute, st => st
  | .auth_setup, st => st

/-- Request dispatch through the blueprint: `ensure_openai_token` is
registered with `@bp.before_request`, so it runs before the handler of
every route of the blueprint; an exception in the hook aborts the request. -/
def dispatch (route : Route) (st : GateState) (now : Int)
    (provider : AccessToken) : Except String (GateState × GateTrace) :=
  match ensure_openai_token st now provider with
  | .error e => .error e
  | .ok (st2, tr) => .ok (route_handler_gate_effect route st2, tr)

/-- The AuthenticationHelper constructor arguments assembled in
`setup_clients`. -/
structure AuthenticationHelper where
  use_authentication : Bool
  server_app_id : Option String
  server_app_secret : Option String
  client_app_id : Option String
  tenant_id : Option String
  token_cache_path : Option String

/-- Model of Python `str.lower()` (ASCII range): lowercase every
character of the string. -/
def pyLower (s : String) : String := String.mk (s.data.map Char.toLower)

/-- The AuthenticationHelper construction from `setup_clients` in app.py:
`use_authentication` is the result of
`os.getenv("AZURE_USE_AUTHENTICATION", "").lower() == "false"`, and the
remaining fields are read straight from the environment (`env` models
`os.getenv`, returning `none` for an unset variable). -/
def setup_auth_helper (env : String → Option String) : AuthenticationHelper :=
  { use_authentication :=
      pyLower ((env "AZURE_USE_AUTHENTICATION").getD "") == "false"
  , server_app_id := env "AZURE_SERVER_APP_ID"
  , server_app_secret := env "AZURE_SERVER_APP_SECRET"
  , client_app_id := env "AZURE_CLIENT_APP_ID"
  , tenant_id := env "AZURE_TENANT_ID"
  , token_cache_path := env "TOKEN_CACHE_PATH" }

/-! Concrete requests and stub collaborators used to instantiate the
theorems below, mirroring the scenarios of the specification. -/

/-- The chat messages of the specification scenario. -/
def messages_hi : Json :=
  Json.arr [Json.obj [("role", Json.str "user"), ("content", Json.str "hi")]]

/-- A streaming chat request: JSON body with messages and stream=true. -/
def req_stream : Request :=
  ⟨true, Json.obj [("messages", messages_hi), ("stream", Json.bool true)], []⟩

/-- A non-streaming chat request: JSON body with messages and stream=false. -/
def req_single : Request :=
  ⟨true, Json.obj [("messages", messages_hi), ("stream", Json.bool false)], []⟩

/-- A request whose body is not JSON. -/
def req_nonjson : Request := ⟨false, Json.null, []⟩

/-- A JSON request whose object body lacks the messages field. -/
def req_nomessages : Request :=
  ⟨true, Json.obj [("stream", Json.bool false)], []⟩

/-- A stub AuthenticationHelper that returns a claims mapping. -/
def auth_ok : List (String × String) → Except String Json :=
  fun _ => .ok (Json.obj [("oid", Json.str "user-1")])

/-- A stub AuthenticationHelper that raises an exception. -/
def auth_fail : List (String × String) → Except String Json :=
  fun _ => .error "boom"

/-- A stub Approach returning the single dict of the specification
scenario. -/
def run_dict : Json → Json → Json → Json → Except String ApproachResult :=
  fun _ _ _ _ => .ok (.dict [("answer", Json.str "hello")])

/-- The event sequence of the specification's streaming scenario. -/
def events_hello : List Json :=
  [Json.obj [("delta", Json.str "he")], Json.obj [("delta", Json.str "llo")]]

/-- A stub Approach returning a stream of the scenario events. -/
def run_stream : Json → Json → Json → Json → Except String ApproachResult :=
  fun _ _ _ _ => .ok (.stream events_hello)

/-- A stub Approach raising an exception with a message. -/
def run_err : Json → Json → Json → Json → Except String ApproachResult :=
  fun _ _ _ _ => .error "upstream failure"

/-- A stub Approach raising an exception whose message is empty, as Python
`raise Exception()` yields `str(e) = ""`. -/
def run_err_empty : Json → Json → Json → Json → Except String ApproachResult :=
  fun _ _ _ _ => .error ""

/-- The relay `format_as_ndjson` is exactly the event-wise map appending a
newline to each serialized event. -/
theorem format_as_ndjson_eq_map (events : List Json) :
    format_as_ndjson events = events.map (fun e => Json.dumps e ++ "\n") := by
  induction events with
  | nil => rfl
  | cons e rest ih => simp [format_as_ndjson, ih]

/-- C1: for a valid JSON POST /chat with stream=true whose Approach call
returns a lazy sequence of events, the response body is the chunk sequence
`format_as_ndjson events`, which equals `json(event) + "\n"` for each event
in production order (so its concatenation is the claimed body), with no
event dropped, duplicated, reordered, inspected, or ending the stream
early. -/
theorem chat_stream_relays_ndjson
    (req : Request)
    (auth : List (String × String) → Except String Json)
    (run : Json → Json → Json → Json → Except String ApproachResult)
    (ctx claims ctx2 messages ss : Json) (events : List Json)
    (hjson : req.is_json = true)
    (hctx : req.json.getD "context" (Json.obj []) = .ok ctx)
    (hauth : auth req.headers = .ok claims)
    (hset : ctx.setKey "auth_claims" claims = .ok ctx2)
    (hmsg : req.json.index "messages" = .ok messages)
    (hstream : req.json.getD "stream" (Json.bool false) = .ok (Json.bool true))
    (hss : req.json.getD "session_state" Json.null = .ok ss)
    (hrun : run messages (Json.bool true) ctx2 ss = .ok (.stream events)) :
    (chat req auth run).outcome
        = .response 200 (.streamBody (format_as_ndjson events))
      ∧ format_as_ndjson events = events.map (fun e => Json.dumps e ++ "\n")
      ∧ String.join (format_as_ndjson events)
        = String.join (events.map (fun e => Json.dumps e ++ "\n")) := by
  refine ⟨?_, format_as_ndjson_eq_map events, by rw [format_as_ndjson_eq_map]⟩
  simp [chat, hjson, hctx, hauth, hset, hmsg, hstream, hss, hrun]

/-- Instantiation of C1 on the specification's streaming scenario. -/
theorem chat_stream_relays_ndjson_witness :
    (chat req_stream auth_ok run_stream).outcome
        = .response 200 (.streamBody (format_as_ndjson events_hello))
      ∧ format_as_ndjson events_hello
        = events_hello.map (fun e => Json.dumps e ++ "\n")
      ∧ String.join (format_as_ndjson events_hello)
        = String.join (events_hello.map (fun e => Json.dumps e ++ "\n")) :=
  chat_stream_relays_ndjson req_stream auth_ok run_stream _ _ _ _ _ events_hello
    rfl rfl rfl rfl rfl rfl rfl rfl

/-- C2: for a valid JSON POST /chat whose Approach call returns a single
dict, the response is that dict returned whole as one JSON document with
status 200. -/
theorem chat_dict_returned_whole
    (req : Request)
    (auth : List (String × String) → Except String Json)
    (run : Json → Json → Json → Json → Except String ApproachResult)
    (ctx claims ctx2 messages streamArg ss : Json)
    (d : List (String × Json))
    (hjson : req.is_json = true)
    (hctx : req.json.getD "context" (Json.obj []) = .ok ctx)
    (hauth : auth req.headers = .ok claims)
    (hset : ctx.setKey "auth_claims" claims = .ok ctx2)
    (hmsg : req.json.index "messages" = .ok messages)
    (hstream : req.json.getD "stream" (Json.bool false) = .ok streamArg)
    (hss : req.json.getD "session_state" Json.null = .ok ss)
    (hrun : run messages streamArg ctx2 ss = .ok (.dict d)) :
    (chat req auth run).outcome = .response 200 (.jsonBody (Json.obj d)) := by
  simp [chat, hjson, hctx, hauth, hset, hmsg, hstream, hss, hrun]

/-- Instantiation of C2 on the specification's single-answer scenario:
the stub Approach answer is returned whole with status 200. -/
theorem chat_dict_returned_whole_witness :
    (chat req_single auth_ok run_dict).outcome
      = .response 200 (.jsonBody (Json.obj [("answer", Json.str "hello")])) :=
  chat_dict_returned_whole req_single auth_ok run_dict _ _ _ _ _ _ _
    rfl rfl rfl rfl rfl rfl rfl rfl

/-- C4: a POST /chat whose body is not JSON receives status 415 with body
`error: request must be json`, and the trace shows neither the
AuthenticationHelper nor the Approach was invoked (and the handler contains
no credential refresh of its own). -/
theorem chat_non_json_415
    (req : Request)
    (auth : List (String × String) → Except String Json)
    (run : Json → Json → Json → Json → Except String ApproachResult)
    (hnj : req.is_json = false) :
    chat req auth run
      = ⟨.response 415
           (.jsonBody (Json.obj [("error", Json.str "request must be json")])),
         ⟨0, 0, false⟩⟩ := by
  simp [chat, hnj]

/-- Instantiation of C4 on a concrete non-JSON request. -/
theorem chat_non_json_415_witness :
    chat req_nonjson auth_ok run_dict
      = ⟨.response 415
           (.jsonBody (Json.obj [("error", Json.str "request must be json")])),
         ⟨0, 0, false⟩⟩ :=
  chat_non_json_415 req_nonjson auth_ok run_dict rfl

/-- C5 counterexample: a JSON body lacking the messages field is not
rejected with a 415 before downstream calls — the AuthenticationHelper is
invoked (trace authCalls = 1) and the handler answers 500 with the
`KeyError` text, not 415. -/
theorem chat_missing_messages_counterexample :
    chat req_nomessages auth_ok run_dict
      = ⟨.response 500
           (.jsonBody (Json.obj [("error", Json.str (keyErrorStr "messages"))])),
         ⟨1, 0, true⟩⟩ := rfl

/-- C5 amended: a JSON object body on which the messages lookup raises
`KeyError` leads to status 500 with the exception text as error body, after
the AuthenticationHelper has been invoked once (authCalls = 1) and before
the Approach is invoked (approachCalls = 0); only a non-JSON body receives
415. -/
theorem chat_missing_messages_500_after_auth
    (req : Request)
    (auth : List (String × String) → Except String Json)
    (run : Json → Json → Json → Json → Except String ApproachResult)
    (ctx claims ctx2 : Json) (em : String)
    (hjson : req.is_json = true)
    (hctx : req.json.getD "context" (Json.obj []) = .ok ctx)
    (hauth : auth req.headers = .ok claims)
    (hset : ctx.setKey "auth_claims" claims = .ok ctx2)
    (hmsg : req.json.index "messages" = .error em) :
    chat req auth run
      = ⟨.response 500 (.jsonBody (Json.obj [("error", Json.str em)])),
         ⟨1, 0, true⟩⟩ := by
  simp [chat, hjson, hctx, hauth, hset, hmsg]

/-- Instantiation of the amended C5 on a body lacking messages. -/
theorem chat_missing_messages_500_after_auth_witness :
    chat req_nomessages auth_ok run_dict
      = ⟨.response 500
           (.jsonBody (Json.obj [("error", Json.str (keyErrorStr "messages"))])),
         ⟨1, 0, true⟩⟩ :=
  chat_missing_messages_500_after_auth req_nomessages auth_ok run_dict
    _ _ _ _ rfl rfl rfl rfl rfl

/-- C6 counterexample: an Approach exception whose Python message is empty
(`str(Exception()) = ""`) is mapped to a 500 whose error string is empty,
so the claimed body shape with a non-empty string fails. -/
theorem chat_empty_error_counterexample :
    chat req_single auth_ok run_err_empty
      = ⟨.response 500 (.jsonBody (Json.obj [("error", Json.str "")])),
         ⟨1, 1, true⟩⟩ := rfl

/-- C6 amended: any exception raised by the Approach run call is caught,
logged (loggedException = true) and mapped to status 500 with body
`error: str(e)` — the exception text, which may be empty — and the
Approach is invoked exactly once (approachCalls = 1, no retry). -/
theorem chat_approach_error_500
    (req : Request)
    (auth : List (String × String) → Except String Json)
    (run : Json → Json → Json → Json → Except String ApproachResult)
    (ctx claims ctx2 messages streamArg ss : Json) (e : String)
    (hjson : req.is_json = true)
    (hctx : req.json.getD "context" (Json.obj []) = .ok ctx)
    (hauth : auth req.headers = .ok claims)
    (hset : ctx.setKey "auth_claims" claims = .ok ctx2)
    (hmsg : req.json.index "messages" = .ok messages)
    (hstream : req.json.getD "stream" (Json.bool false) = .ok streamArg)
    (hss : req.json.getD "session_state" Json.null = .ok ss)
    (hrun : run messages streamArg ctx2 ss = .error e) :
    chat req auth run
      = ⟨.response 500 (.jsonBody (Json.obj [("error", Json.str e)])),
         ⟨1, 1, true⟩⟩ := by
  simp [chat, hjson, hctx, hauth, hset, hmsg, hstream, hss, hrun]

/-- Instantiation of the amended C6 on a failing stub Approach. -/
theorem chat_approach_error_500_witness :
    chat req_single auth_ok run_err
      = ⟨.response 500
           (.jsonBody (Json.obj [("error", Json.str "upstream failure")])),
         ⟨1, 1, true⟩⟩ :=
  chat_approach_error_500 req_single auth_ok run_err _ _ _ _ _ _ "upstream failure"
    rfl rfl rfl rfl rfl rfl rfl rfl

/-- C7 counterexample: an exception raised by the AuthenticationHelper is
not converted to the 500 error envelope — it escapes the handler uncaught
(the auth call sits before the try block). -/
theorem chat_auth_exception_escapes_counterexample :
    chat req_single auth_fail run_dict = ⟨.escaped "boom", ⟨1, 0, false⟩⟩ := rfl

/-- C7 amended: failures inside the try block — the Approach call and
result handling — are caught and mapped to the 500 error envelope, but an
exception raised by the AuthCollaborator occurs before the try block and
escapes the handler uncaught instead of being converted. -/
theorem chat_try_catches_auth_escapes
    (req : Request)
    (auth : List (String × String) → Except String Json)
    (run : Json → Json → Json → Json → Except String ApproachResult)
    (ctx : Json) (e : String)
    (req2 : Request)
    (auth2 : List (String × String) → Except String Json)
    (run2 : Json → Json → Json → Json → Except String ApproachResult)
    (ctxb claimsb ctx2b messagesb streamArgb ssb : Json) (e2 : String)
    (hjson : req.is_json = true)
    (hctx : req.json.getD "context" (Json.obj []) = .ok ctx)
    (hauth : auth req.headers = .error e)
    (gjson : req2.is_json = true)
    (gctx : req2.json.getD "context" (Json.obj []) = .ok ctxb)
    (gauth : auth2 req2.headers = .ok claimsb)
    (gset : ctxb.setKey "auth_claims" claimsb = .ok ctx2b)
    (gmsg : req2.json.index "messages" = .ok messagesb)
    (gstream : req2.json.getD "stream" (Json.bool false) = .ok streamArgb)
    (gss : req2.json.getD "session_state" Json.null = .ok ssb)
    (grun : run2 messagesb streamArgb ctx2b ssb = .error e2) :
    chat req auth run = ⟨.escaped e, ⟨1, 0, false⟩⟩
    ∧ chat req2 auth2 run2
        = ⟨.response 500 (.jsonBody (Json.obj [("error", Json.str e2)])),
           ⟨1, 1, true⟩⟩ := by
  constructor
  · simp [chat, hjson, hctx, hauth]
  · simp [chat, gjson, gctx, gauth, gset, gmsg, gstream, gss, grun]

/-- Instantiation of the amended C7: a failing auth stub escapes while a
failing Approach stub is converted to the envelope. -/
theorem chat_try_catches_auth_escapes_witness :
    chat req_single auth_fail run_dict = ⟨.escaped "boom", ⟨1, 0, false⟩⟩
    ∧ chat req_stream auth_ok run_err
        = ⟨.response 500
             (.jsonBody (Json.obj [("error", Json.str "upstream failure")])),
           ⟨1, 1, true⟩⟩ :=
  chat_try_catches_auth_escapes req_single auth_fail run_dict _ "boom"
    req_stream auth_ok run_err _ _ _ _ _ _ "upstream failure"
    rfl rfl rfl rfl rfl rfl rfl rfl rfl rfl rfl

/-- A gate state in the azure_ad mode holding a token that expires at epoch
second 100. -/
def st_ad : GateState := ⟨"azure_ad", some "oldtok", some ⟨"oldtok", 100⟩⟩

/-- A gate state in a static-API-key mode. -/
def st_key : GateState := ⟨"azure", some "statickey", none⟩

/-- A fresh provider token expiring at epoch second 5000. -/
def provider_token : AccessToken := ⟨"newtok", 5000⟩

/-- C3: in the azure_ad mode with a stored token, the gate refreshes
exactly when the stored expiry is strictly below now + 60 (updating the
config slot and openai.api_key), the token in effect afterwards — assuming
the provider returns a token valid beyond the margin — always satisfies
now + 60 ≤ expiry so no downstream call uses a token within the margin,
and in a static-API-key mode the gate returns unchanged state with neither
lookup nor refresh. -/
theorem gate_refresh_policy
    (st st2 : GateState) (now : Int) (provider t : AccessToken)
    (had : st.api_type = "azure_ad")
    (hstored : st.config_token = some t)
    (hfresh : now + 60 ≤ provider.expires_on)
    (hkey : st2.api_type ≠ "azure_ad") :
    ensure_openai_token st now provider
      = .ok (if t.expires_on < now + 60 then
               ({ st with config_token := some provider,
                          api_key := some provider.token }, ⟨true, true⟩)
             else (st, ⟨true, false⟩))
    ∧ now + 60 ≤ (if t.expires_on < now + 60 then provider else t).expires_on
    ∧ ensure_openai_token st2 now provider = .ok (st2, ⟨false, false⟩) := by
  refine ⟨?_, ?_, ?_⟩
  · by_cases hc : t.expires_on < now + 60 <;>
      simp [ensure_openai_token, had, hstored, hc]
  · by_cases hc : t.expires_on < now + 60
    · simpa [hc] using hfresh
    · simp only [hc, if_false]
      omega
  · simp [ensure_openai_token, hkey]

/-- Instantiation of C3: a near-expired stored token at now = 1000 is
refreshed by the gate, and the static-key state passes through untouched. -/
theorem gate_refresh_policy_witness :
    ensure_openai_token st_ad 1000 provider_token
      = .ok (if (100 : Int) < 1000 + 60 then
               ({ st_ad with config_token := some provider_token,
                             api_key := some provider_token.token },
                ⟨true, true⟩)
             else (st_ad, ⟨true, false⟩))
    ∧ (1000 : Int) + 60
        ≤ (if (100 : Int) < 1000 + 60 then provider_token
           else (⟨"oldtok", 100⟩ : AccessToken)).expires_on
    ∧ ensure_openai_token st_key 1000 provider_token
        = .ok (st_key, ⟨false, false⟩) :=
  gate_refresh_policy st_ad st_key 1000 provider_token ⟨"oldtok", 100⟩
    rfl rfl (by decide) (by decide)

/-- C8: in the azure_ad mode with no token stored under the config key —
the state `setup_clients` leaves behind, since it never assigns
`config[CONFIG_OPENAI_TOKEN]` — the gate's lookup of the stored token
raises `KeyError` instead of fetching a fresh token and proceeding, so the
code contradicts the specified absent-token policy. -/
theorem gate_missing_token_keyerror :
    ensure_openai_token ⟨"azure_ad", none, none⟩ 0 ⟨"newtok", 3600⟩
      = .error (keyErrorStr CONFIG_OPENAI_TOKEN) := rfl

/-- C9: the AuthenticationHelper is constructed with use_authentication
true exactly when the AZURE_USE_AUTHENTICATION environment variable,
lowercased, equals the string false; in particular the value true, or the
variable being unset, yields authentication disabled. -/
theorem auth_flag_requires_false_string :
    (∀ env : String → Option String,
        (setup_auth_helper env).use_authentication = true
          ↔ pyLower ((env "AZURE_USE_AUTHENTICATION").getD "") = "false")
    ∧ (setup_auth_helper (fun _ => some "true")).use_authentication = false
    ∧ (setup_auth_helper (fun _ => none)).use_authentication = false := by
  refine ⟨fun env => ?_, by decide, by decide⟩
  simp [setup_auth_helper]

/-- C10: the token gate is a blueprint before-request hook, so dispatching
any of the seven registered routes in the azure_ad mode with a stored token
inside the 60-second margin refreshes the token and updates the global
openai.api_key to the new token value — not only POST /chat. -/
theorem gate_runs_before_every_route
    (route : Route) (st : GateState) (now : Int) (provider t : AccessToken)
    (had : st.api_type = "azure_ad")
    (hstored : st.config_token = some t)
    (hexp : t.expires_on < now + 60) :
    dispatch route st now provider
      = .ok ({ st with config_token := some provider,
                       api_key := some provider.token }, ⟨true, true⟩) := by
  cases route <;>
    simp [dispatch, ensure_openai_token, route_handler_gate_effect,
          had, hstored, hexp]

/-- Instantiation of C10 on the basepath route (not the chat route): the
dispatch refreshes the token and updates the api key. -/
theorem gate_runs_before_every_route_witness :
    dispatch Route.basepath st_ad 1000 provider_token
      = .ok ({ st_ad with config_token := some provider_token,
                          api_key := some provider_token.token },
             ⟨true, true⟩) :=
  gate_runs_before_every_route Route.basepath st_ad 1000 provider_token
    ⟨"oldtok", 100⟩ rfl rfl (by decide)

end AzureDataChat
